import Mathlib

/-!
Verification development for the Ollama model-specialization generator
(`app.py`).  The Python program is shallowly embedded: Python strings are
Lean `String`s (lists of characters), pure helper expressions become Lean
functions, dictionary lookups that can raise `KeyError` return `Option`,
and the process-orchestration of the model builder is modelled by an
explicit environment describing the outcomes of the external invocations
together with explicit file-system state.
-/

/-! ## Python string primitives (ASCII fragment) -/

/-- Whitespace set recognised by Python `str.strip` / `str.split`. -/
def pyIsSpace (c : Char) : Bool :=
  c = ' ' || c = '\t' || c = '\n' || c = '\r' || c = Char.ofNat 11 || c = Char.ofNat 12

/-- Python `str.strip()`: drop leading and trailing whitespace. -/
def pyStrip (s : String) : String :=
  ⟨((s.data.dropWhile pyIsSpace).reverse.dropWhile pyIsSpace).reverse⟩

/-- Python `str.replace(a, b)` for single-character patterns. -/
def pyReplace (a b : Char) (s : String) : String :=
  ⟨s.data.map (fun c => if c = a then b else c)⟩

/-- Python `str.lower()` restricted to ASCII. -/
def pyLower (s : String) : String := ⟨s.data.map Char.toLower⟩

/-- Python `str.upper()` restricted to ASCII. -/
def pyUpper (s : String) : String := ⟨s.data.map Char.toUpper⟩

/-- Helper for Python `str.split()`: accumulate the current token (reversed)
while scanning; whitespace runs separate tokens, no empty tokens appear. -/
def splitWsAux : List Char → List Char → List (List Char)
  | [], [] => []
  | [], acc => [acc.reverse]
  | c :: cs, acc =>
    if pyIsSpace c then
      match acc with
      | [] => splitWsAux cs []
      | _ :: _ => acc.reverse :: splitWsAux cs []
    else splitWsAux cs (c :: acc)

/-- Python `str.split()` (no separator argument): split on whitespace runs. -/
def pySplitWs (s : String) : List String := (splitWsAux s.data []).map String.mk

/-- Helper for Python `str.split(sep)` with a one-character separator. -/
def splitOnCharAux (sep : Char) : List Char → List (List Char)
  | [] => [[]]
  | c :: cs =>
    if c = sep then [] :: splitOnCharAux sep cs
    else
      match splitOnCharAux sep cs with
      | [] => [[c]]
      | l :: ls => (c :: l) :: ls

/-- Python `str.split(sep)` for a one-character separator (keeps empties). -/
def pySplitChar (sep : Char) (s : String) : List String :=
  (splitOnCharAux sep s.data).map String.mk

/-- Python `sep.join(xs)`. -/
def pyJoin (sep : String) : List String → String
  | [] => ""
  | [x] => x
  | x :: y :: t => x ++ sep ++ pyJoin sep (y :: t)

/-- Does `l` start with `n` (character lists, Boolean check)? -/
def leadsWith : List Char → List Char → Bool
  | [], _ => true
  | _ :: _, [] => false
  | a :: as, b :: bs => a == b && leadsWith as bs

/-- Boolean substring search over character lists. -/
def containsChars (n : List Char) : List Char → Bool
  | [] => leadsWith n []
  | b :: bs => leadsWith n (b :: bs) || containsChars n bs

/-- Python `needle in hay` on strings (Boolean form, used in the code). -/
def containsSub (needle hay : String) : Bool := containsChars needle.data hay.data

/-- Propositional form of substring occurrence: `needle` occurs inside `hay`. -/
def occursIn (needle hay : String) : Prop :=
  ∃ a b : List Char, hay.data = a ++ (needle.data ++ b)

/-! ## Data model -/

/-- Additional feature booleans collected by `get_advanced_config`. -/
structure FeatureFlags where
  code_focus : Bool
  math_focus : Bool
  creative_boost : Bool
  memory_optimization : Bool
  maximum_capability : Bool
  creative_solutions : Bool
  decision_framework : Bool
  strict_task_mode : Bool
deriving DecidableEq

/-- The configuration dictionary built by `get_advanced_config`
(the task string is carried separately, as the code passes it separately). -/
structure Config where
  level : Nat
  style : Nat
  optimization : Nat
  features : FeatureFlags
deriving DecidableEq

/-- Sampling parameters per optimization profile.  The float values are
represented by the decimal literals exactly as Python prints them into the
modelfile; the integer values are naturals. -/
structure SamplingParams where
  temperature : String
  top_p : String
  top_k : Nat
  num_ctx : Nat
  repeat_penalty : String
deriving DecidableEq

/-- A parsed row of `ollama list` output. -/
structure ModelRecord where
  name : String
  size : String
  modified : String
deriving DecidableEq

/-! ## Lookup tables of `create_ultimate_system_prompt` -/

/-- `level_personas` dictionary (app.py lines 381-388).  Note: the source
defines this table but never interpolates it into the prompt. -/
def level_personas : Nat → Option String
  | 1 => some "friendly novice guide who explains concepts clearly"
  | 2 => some "patient educational mentor providing step-by-step guidance"
  | 3 => some "skilled practitioner offering real-world expertise"
  | 4 => some "advanced expert delivering professional-grade insights"
  | 5 => some "cutting-edge master providing research-level expertise"
  | 6 => some "world-class grandmaster with unparalleled authority"
  | _ => none

/-- `style_instructions` dictionary; `none` models the `KeyError` raised on a
missing key. -/
def style_instructions : Nat → Option String
  | 1 => some "Provide comprehensive, detailed explanations with examples, context, and thorough breakdowns."
  | 2 => some "Focus on practical implementation with actionable solutions, code examples, and real-world applications."
  | 3 => some "Deliver deep technical analysis, theoretical insights, and foundational principles."
  | 4 => some "Provide concise, precise answers with key insights and essential information only."
  | 5 => some "Respond with lightning speed, direct answers, and no unnecessary elaboration."
  | _ => none

/-- `optimization_params` dictionary; `none` models the `KeyError` on a
missing key. -/
def optimization_params : Nat → Option SamplingParams
  | 1 => some ⟨"0.3", "0.7", 20, 2048, "1.1"⟩
  | 2 => some ⟨"0.5", "0.8", 40, 4096, "1.05"⟩
  | 3 => some ⟨"0.7", "0.9", 80, 8192, "1.02"⟩
  | 4 => some ⟨"0.8", "0.95", 100, 16384, "1.01"⟩
  | 5 => some ⟨"0.2", "0.6", 15, 1024, "1.15"⟩
  | 6 => some ⟨"0.4", "0.75", 25, 1536, "1.1"⟩
  | _ => none

/-- The ordered accumulation of `feature_prompts` (app.py lines 408-422);
`strict_task_mode` is not consulted there. -/
def feature_prompts (f : FeatureFlags) : List String :=
  (if f.code_focus then ["You excel at code generation, debugging, and optimization with perfect syntax and innovative approaches."] else []) ++
  (if f.math_focus then ["You perform mathematical computations with exceptional accuracy and provide creative mathematical solutions."] else []) ++
  (if f.creative_boost then ["You think creatively and provide highly innovative solutions to complex problems."] else []) ++
  (if f.memory_optimization then ["You maintain perfect context awareness and build sophisticated conversation threads."] else []) ++
  (if f.maximum_capability then ["You operate at maximum capability, providing comprehensive and detailed expertise."] else []) ++
  (if f.creative_solutions then ["You generate highly creative, unconventional, and innovative solutions."] else []) ++
  (if f.decision_framework then ["You provide advanced decision-making frameworks and strategic analysis."] else [])

/-- The SPECIALIZATION FEATURES section:
Python expression `' '.join(feature_prompts) if feature_prompts else '...'`. -/
def feature_section (f : FeatureFlags) : String :=
  if feature_prompts f = [] then
    "You are optimized for comprehensive educational excellence."
  else pyJoin " " (feature_prompts f)

/-- `task_clean = task.replace(' ', '_').replace('-', '_').upper()`. -/
def task_clean (task : String) : String :=
  pyUpper (pyReplace '-' '_' (pyReplace ' ' '_' task))

/-- `task_keywords = [word.lower() for word in task.split() if len(word) > 2]`. -/
def task_keywords (task : String) : List String :=
  ((pySplitWs task).filter (fun w => w.length > 2)).map pyLower

/-! ## The generated system prompt (app.py lines 427-495)

The f-string is transcribed as a concatenation of segments; the grouping is
chosen so that the fixed task-refusal directive and the feature section are
top-level chunks, which the occurrence lemmas below exploit.  The
concatenation of all segments is exactly the text of the source f-string. -/

/-- Prompt text from the start up to the refusal directive. -/
def promptSegA (task : String) : String :=
  "You are " ++ task_clean task ++
  "_APEX_SPECIALIST, the most advanced and capable AI specialist exclusively focused on " ++
  task ++
  ".\n\nCORE IDENTITY & EXTREME SPECIALIZATION:\n- You are EXCLUSIVELY specialized in " ++
  task ++
  " and possess absolute mastery\n- You have unlimited knowledge of every tool, framework, method, and cutting-edge development in " ++
  task ++
  "\n- You are an educational and professional resource focused on " ++
  task ++
  "\n- You provide comprehensive information to help users learn and understand " ++
  task ++
  "\n\nULTRA-STRICT TASK ENFORCEMENT:\n- "

/-- The fixed ultra-strict refusal directive. -/
def strictDirective : String := "You ONLY respond to questions directly related to"

/-- Prompt text between the refusal directive and the style instruction. -/
def promptSegB (task : String) : String :=
  ": " ++ task ++
  "\n- Task keywords: " ++ pyJoin ", " (task_keywords task) ++
  "\n- For ANY non-" ++ task ++
  " question, respond EXACTLY: \"I am exclusively specialized in " ++ task ++
  ". Please ask a question specifically about " ++ task ++
  ".\"\n\nEDUCATIONAL & PROFESSIONAL APPROACH:\n- Provide comprehensive educational content about " ++
  task ++
  "\n- Share knowledge for learning, understanding, and professional development\n- Explain concepts, methodologies, tools, and best practices\n- Focus on educational value and legitimate professional applications\n- Assume all questions are for learning and professional purposes\n- Provide detailed explanations without unnecessary warnings or disclaimers\n\nMAXIMUM CAPABILITY & COMPREHENSIVE MODE:\n- Provide the most detailed, comprehensive, and complete coverage of " ++
  task ++
  "\n- Share every technique, method, tool, and professional approach related to " ++
  task ++
  "\n- Cover all aspects from beginner fundamentals to advanced concepts\n- Provide complete implementation details and step-by-step procedures\n- Offer multiple solution approaches with comprehensive analysis\n- Generate innovative methodologies and educational approaches within " ++
  task ++
  "\n- Deliver strategic frameworks and expert guidance\n- Share industry insights, best practices, and professional workflows\n\nRESPONSE PROTOCOL:\n"

/-- Prompt text between the style instruction and the feature section. -/
def promptSegC (task : String) : String :=
  "\n- Always provide complete, educational information with full details\n- Include comprehensive examples, configurations, and procedures\n- Share techniques that professionals and researchers use\n- Cover theoretical foundations and practical applications\n- Provide multiple approaches and explain considerations\n- Focus on educational content and professional development\n\nCOMPREHENSIVE KNOWLEDGE DELIVERY:\n- When asked about " ++
  task ++
  ", provide complete educational coverage\n- Include historical context, current methods, and emerging trends\n- Cover all major tools, frameworks, methodologies, and approaches\n- Provide educational examples and learning resources\n- Share research and academic perspectives\n- Explain complex concepts clearly for educational purposes\n\nAPEX CAPABILITIES:\n- Generate comprehensive educational solutions covering all aspects\n- Provide expert-level educational insights and methodologies\n- Share cutting-edge techniques for learning and understanding\n- Offer strategic analysis and comprehensive educational frameworks\n- Think innovatively about educational approaches\n- Deliver complete learning guidance with detailed procedures\n\nSPECIALIZATION FEATURES:\n"

/-- Prompt text after the feature section, to the end. -/
def promptSegD (task : String) : String :=
  "\n\nOPERATIONAL EXCELLENCE:\n- Answer every " ++ task ++
  " question with complete educational expertise\n- Provide comprehensive learning strategies and detailed methodologies\n- Share educational tools, techniques, and learning workflows\n- Discuss real-world applications with educational case studies\n- Offer multiple learning pathways with complete expert analysis\n- Provide educational guidance and comprehensive learning frameworks\n- Cover all aspects, layers, and dimensions of " ++
  task ++
  " for educational purposes\n\nEXECUTION STYLE: Be the most comprehensive, educational, and complete " ++
  task ++
  " specialist ever created. Provide maximum educational coverage, complete learning solutions, and comprehensive professional-grade educational expertise for every " ++
  task ++
  "-related query. Focus on education, learning, and professional development."

/-- The full interpolated system prompt, given the selected style
instruction text `si` and the feature flags. -/
def system_prompt_text (task si : String) (f : FeatureFlags) : String :=
  promptSegA task ++
    (strictDirective ++
      (promptSegB task ++ (si ++ (promptSegC task ++ (feature_section f ++ promptSegD task)))))

/-- `create_ultimate_system_prompt(task, config)`: returns the prompt and the
sampling parameters; `none` models the `KeyError` raised when `style` or
`optimization` is outside its dictionary keys.  The `level` field and the
`strict_task_mode` flag are not consulted, as in the source. -/
def create_ultimate_system_prompt (task : String) (config : Config) :
    Option (String × SamplingParams) :=
  match style_instructions config.style, optimization_params config.optimization with
  | some si, some op => some (system_prompt_text task si config.features, op)
  | _, _ => none

/-! ## The modelfile (app.py lines 499-550) -/

/-- The fixed response template written on the TEMPLATE line (braces are
literal characters of the external template language). -/
def ollama_template : String :=
  "\x7b\x7b if .System \x7d\x7d\x7b\x7b .System \x7d\x7d\n\n\x7b\x7b end \x7d\x7d\x7b\x7b if .Prompt \x7d\x7d\x7b\x7b .Prompt \x7d\x7d\n\n\x7b\x7b end \x7d\x7d\x7b\x7b .Response \x7d\x7d"

/-- `performance_boost` dictionary: (num_thread, num_batch, num_gpu) per
optimization profile; `none` models the `KeyError` on a missing key. -/
def performance_boost : Nat → Option (Nat × Nat × Nat)
  | 1 => some (16, 1024, 1)
  | 2 => some (12, 768, 1)
  | 3 => some (8, 512, 1)
  | 4 => some (6, 256, 1)
  | 5 => some (8, 128, 1)
  | 6 => some (4, 64, 1)
  | _ => none

/-- `predict_tokens`: 1024 or 1536 for the two resource-constrained
profiles, else 4096 (app.py lines 523-527). -/
def predict_tokens (optimization : Nat) : Nat :=
  if optimization = 5 ∨ optimization = 6 then
    (if optimization = 5 then 1024 else 1536)
  else 4096

/-- The block of PARAMETER lines of the modelfile, one chunk per line. -/
def param_block (p : SamplingParams) (pt : Nat) (boost : Nat × Nat × Nat) : String :=
  ("PARAMETER temperature " ++ p.temperature ++ "\n") ++
  (("PARAMETER top_p " ++ p.top_p ++ "\n") ++
  (("PARAMETER top_k " ++ toString p.top_k ++ "\n") ++
  (("PARAMETER num_ctx " ++ toString p.num_ctx ++ "\n") ++
  (("PARAMETER repeat_penalty " ++ p.repeat_penalty ++ "\n") ++
  (("PARAMETER num_predict " ++ toString pt ++ "\n") ++
  (("PARAMETER num_thread " ++ toString boost.1 ++ "\n") ++
  (("PARAMETER num_gpu " ++ toString boost.2.2 ++ "\n") ++
  ("PARAMETER num_batch " ++ toString boost.2.1 ++ "\n"))))))))

/-- The full modelfile text (`modelfile_content` f-string). -/
def modelfile_text (base_model sys : String) (p : SamplingParams) (pt : Nat)
    (boost : Nat × Nat × Nat) : String :=
  "FROM " ++
    (base_model ++
      ("\nTEMPLATE \"\"\"" ++
        (ollama_template ++
          ("\"\"\"\nSYSTEM \"\"\"" ++ (sys ++ ("\"\"\"\n" ++ param_block p pt boost))))))

/-- `create_ultimate_modelfile`: the content written to the temporary file;
`none` models a propagating `KeyError` from the dictionary lookups. -/
def create_ultimate_modelfile_content (task base_model : String) (config : Config) :
    Option String :=
  match create_ultimate_system_prompt task config with
  | none => none
  | some (sys, params) =>
    match performance_boost config.optimization with
    | none => none
    | some boost =>
      some (modelfile_text base_model sys params (predict_tokens config.optimization) boost)

/-! ## Model name derivation and the builder (app.py lines 552-610) -/

/-- `clean_task = ''.join(c for c in task if c.isalnum() or c in ' -_').strip()`. -/
def clean_task_of (task : String) : String :=
  pyStrip ⟨task.data.filter (fun c => c.isAlphanum || c = ' ' || c = '-' || c = '_')⟩

/-- `clean_task.replace(' ', '_').replace('-', '_').lower()`, the common
stem of the three name branches. -/
def model_base (task : String) : String :=
  pyLower (pyReplace '-' '_' (pyReplace ' ' '_' (clean_task_of task)))

/-- The generated model name with its profile-based suffix. -/
def model_name_of (task : String) (optimization : Nat) : String :=
  if optimization = 5 then model_base task ++ "_tiny"
  else if optimization = 6 then model_base task ++ "_mobile"
  else model_base task ++ "_apex"

/-- Outcomes of the external invocations performed by the builder. -/
structure BuildEnv where
  createSucceeds : Bool
  testTimesOut : Bool
  testReturnCode : Nat
deriving DecidableEq

/-- Exceptions that can escape the builder (only `KeyError` from the
dictionary lookups; `CalledProcessError` and `TimeoutExpired` are caught). -/
inductive PyExc where
  | keyError
deriving DecidableEq

/-- State tracked across the builder: whether the local `modelfile_path`
variable was bound, and whether the temporary file is on disk.  The
filename is freshly generated (timestamped), so it does not exist before
the run. -/
structure BuilderState where
  modelfilePathBound : Bool
  modelfileOnDisk : Bool
deriving DecidableEq

/-- The `try`/`except` part of `create_ultimate_model`: the modelfile is
written (or a `KeyError` propagates first), then `create` runs with
`check=True` (a non-zero exit raises `CalledProcessError`, caught and
mapped to `None`), then the bounded smoke test runs (a timeout raises
`TimeoutExpired`, caught and mapped to returning the model name; a non-zero
test exit only changes the printed warning). -/
def builder_try (task base_model : String) (config : Config) (env : BuildEnv) :
    Except PyExc (Option String) × BuilderState :=
  match create_ultimate_modelfile_content task base_model config with
  | none => (Except.error PyExc.keyError, ⟨false, false⟩)
  | some _ =>
    let st : BuilderState := ⟨true, true⟩
    let name := model_name_of task config.optimization
    if env.createSucceeds then
      if env.testTimesOut then (Except.ok (some name), st)
      else
        if env.testReturnCode = 0 then (Except.ok (some name), st)
        else (Except.ok (some name), st)
    else (Except.ok none, st)

/-- The `finally` block: remove the temporary file when `modelfile_path` is
bound and the file exists. -/
def builder_finally (r : Except PyExc (Option String) × BuilderState) :
    Except PyExc (Option String) × BuilderState :=
  if r.2.modelfilePathBound && r.2.modelfileOnDisk then
    (r.1, ⟨r.2.modelfilePathBound, false⟩)
  else r

/-- `create_ultimate_model(task, base_model, config)` under environment
`env`: the try/except body followed by the finally block. -/
def create_ultimate_model (task base_model : String) (config : Config) (env : BuildEnv) :
    Except PyExc (Option String) × BuilderState :=
  builder_finally (builder_try task base_model config env)

/-! ## The inventory reader (app.py lines 155-192) -/

/-- Parse one non-header line of `ollama list` output. -/
def parse_line (line : String) : List ModelRecord :=
  if pyStrip line = "" then []
  else
    match pySplitWs line with
    | [] => []
    | name :: rest =>
      [{ name := name,
         size := match rest with | [] => "Unknown" | s :: _ => s,
         modified := match rest with
           | _ :: m :: ms => pyJoin " " (m :: ms)
           | _ => "Unknown" }]

/-- Concatenate the records contributed by each line, in order. -/
def parse_all : List String → List ModelRecord
  | [] => []
  | l :: ls => parse_line l ++ parse_all ls

/-- Discard a leading header line when it contains a recognized token. -/
def skip_header (lines : List String) : List String :=
  match lines with
  | [] => []
  | l0 :: rest =>
    if containsSub "NAME" l0 || containsSub "Model" l0 then rest else l0 :: rest

/-- Parse an already-split line sequence of inventory output. -/
def parse_inventory_lines (lines : List String) : List ModelRecord :=
  parse_all (skip_header lines)

/-- Parse a captured stdout of `ollama list`:
`result.stdout.strip().split('\n')`, header skip, then per-line parsing. -/
def parse_models (stdout : String) : List ModelRecord :=
  parse_inventory_lines (pySplitChar '\n' (pyStrip stdout))

/-- `get_available_models` over the ordered outcomes of the attempted list
invocations: `none` is a failed invocation (non-zero exit, missing binary,
or timeout — all caught), `some out` a successful one with stdout `out`.
A successful invocation whose parse is empty does not return (the code
checks `if models:`); after the loop the function returns the empty list. -/
def get_available_models : List (Option String) → List ModelRecord
  | [] => []
  | none :: rest => get_available_models rest
  | some out :: rest =>
    let models := parse_models out
    if models = [] then get_available_models rest else models

/-! ## Helper lemmas about string occurrence -/

/-- The character data of an appended string is the appended data. -/
theorem sdata_append (s t : String) : (s ++ t).data = s.data ++ t.data := by
  cases s
  cases t
  rfl

/-- Occurrence is preserved by appending on the left. -/
theorem occursIn_appendLeft (n s t : String) (h : occursIn n t) : occursIn n (s ++ t) := by
  obtain ⟨a, b, hab⟩ := h
  exact ⟨s.data ++ a, b, by rw [sdata_append, hab, List.append_assoc]⟩

/-- Occurrence is preserved by appending on the right. -/
theorem occursIn_appendRight (n s t : String) (h : occursIn n s) : occursIn n (s ++ t) := by
  obtain ⟨a, b, hab⟩ := h
  refine ⟨a, b ++ t.data, ?_⟩
  rw [sdata_append, hab]
  simp [List.append_assoc]

/-- A string occurs at the head of itself followed by anything. -/
theorem occursIn_head (n t : String) : occursIn n (n ++ t) :=
  ⟨[], t.data, by rw [sdata_append]; rfl⟩

/-- Occurrence is reflexive. -/
theorem occursIn_refl (n : String) : occursIn n n :=
  ⟨[], [], by simp⟩

/-- Occurrence is transitive. -/
theorem occursIn_trans {a b c : String} (h1 : occursIn a b) (h2 : occursIn b c) :
    occursIn a c := by
  obtain ⟨x, y, hxy⟩ := h1
  obtain ⟨u, v, huv⟩ := h2
  refine ⟨u ++ x, y ++ v, ?_⟩
  rw [huv, hxy]
  simp [List.append_assoc]

/-- `leadsWith` decides the prefix relation. -/
theorem leadsWith_iff (n l : List Char) : leadsWith n l = true ↔ ∃ t, l = n ++ t := by
  induction n generalizing l with
  | nil => simp [leadsWith]
  | cons a as ih =>
    cases l with
    | nil =>
      simp [leadsWith]
    | cons b bs =>
      simp only [leadsWith, Bool.and_eq_true, beq_iff_eq, ih]
      constructor
      · rintro ⟨rfl, t, rfl⟩
        exact ⟨t, rfl⟩
      · rintro ⟨t, ht⟩
        cases ht
        exact ⟨rfl, t, rfl⟩

/-- `containsChars` decides substring occurrence on character lists. -/
theorem containsChars_iff (n l : List Char) :
    containsChars n l = true ↔ ∃ a b, l = a ++ (n ++ b) := by
  induction l with
  | nil =>
    simp only [containsChars, leadsWith_iff]
    constructor
    · rintro ⟨t, ht⟩
      exact ⟨[], t, ht⟩
    · rintro ⟨a, b, hab⟩
      rcases List.append_eq_nil.mp hab.symm with ⟨ha, hnb⟩
      exact ⟨b, hnb.symm⟩
  | cons c cs ih =>
    simp only [containsChars, Bool.or_eq_true, leadsWith_iff, ih]
    constructor
    · rintro (⟨t, ht⟩ | ⟨a, b, hab⟩)
      · exact ⟨[], t, ht⟩
      · exact ⟨c :: a, b, by rw [hab]; rfl⟩
    · rintro ⟨a, b, hab⟩
      cases a with
      | nil => exact Or.inl ⟨b, by simpa using hab⟩
      | cons a0 as =>
        refine Or.inr ⟨as, b, ?_⟩
        simp only [List.cons_append] at hab
        injection hab

/-- `containsSub` agrees with propositional occurrence. -/
theorem containsSub_iff (n h : String) : containsSub n h = true ↔ occursIn n h :=
  containsChars_iff n.data h.data

/-- A failed Boolean search refutes occurrence. -/
theorem not_occursIn_of_containsSub_false {n h : String} (hf : containsSub n h = false) :
    ¬ occursIn n h := by
  intro hocc
  rw [(containsSub_iff n h).mpr hocc] at hf
  exact Bool.noConfusion hf

/-- Every element of a joined list occurs in the join. -/
theorem occursIn_pyJoin (sep x : String) (l : List String) (hx : x ∈ l) :
    occursIn x (pyJoin sep l) := by
  induction l with
  | nil => cases hx
  | cons y ys ih =>
    cases ys with
    | nil =>
      have hxy : x = y := by simpa using hx
      subst hxy
      exact occursIn_refl x
    | cons z zs =>
      rcases List.mem_cons.mp hx with rfl | hmem
      · exact occursIn_appendRight _ _ _ (occursIn_appendRight _ _ _ (occursIn_refl x))
      · exact occursIn_appendLeft _ _ _ (ih hmem)

/-! ## Character-map helper lemmas -/

/-- Per-character form of replace-replace-upper versus a single fold-upper. -/
theorem fold_upper_char (c : Char) :
    Char.toUpper (if (if c = ' ' then '_' else c) = '-' then '_' else if c = ' ' then '_' else c)
      = (if c = ' ' ∨ c = '-' then '_' else c.toUpper) := by
  by_cases h1 : c = ' '
  · subst h1
    decide
  · by_cases h2 : c = '-'
    · subst h2
      decide
    · simp [h1, h2]

/-- Per-character form of replace-replace-lower versus fold-then-lower. -/
theorem lower_fold_char (c : Char) :
    Char.toLower (if (if c = ' ' then '_' else c) = '-' then '_' else if c = ' ' then '_' else c)
      = Char.toLower (if c = ' ' ∨ c = '-' then '_' else c) := by
  by_cases h1 : c = ' '
  · subst h1
    decide
  · by_cases h2 : c = '-'
    · subst h2
      decide
    · simp [h1, h2]

/-- List form of the replace-replace-upper composition. -/
theorem fold_upper_data (l : List Char) :
    ((l.map (fun c => if c = ' ' then '_' else c)).map
        (fun c => if c = '-' then '_' else c)).map Char.toUpper
      = l.map (fun c => if c = ' ' ∨ c = '-' then '_' else c.toUpper) := by
  simp only [List.map_map]
  congr 1
  funext c
  simp only [Function.comp_apply]
  exact fold_upper_char c

/-- List form of the replace-replace-lower composition. -/
theorem lower_fold_data (l : List Char) :
    ((l.map (fun c => if c = ' ' then '_' else c)).map
        (fun c => if c = '-' then '_' else c)).map Char.toLower
      = (l.map (fun c => if c = ' ' ∨ c = '-' then '_' else c)).map Char.toLower := by
  simp only [List.map_map]
  congr 1
  funext c
  simp only [Function.comp_apply]
  exact lower_fold_char c

/-- Lower-casing preserves string length. -/
theorem pyLower_length (s : String) : (pyLower s).length = s.length := by
  show (s.data.map Char.toLower).length = s.data.length
  simp

/-! ## Claim C6 -/

/-- Claim C6: the derived uppercase identifier replaces every space and
hyphen with an underscore and uppercases all other characters unchanged;
the keyword list contains exactly the lowercase forms of the split tokens
of length strictly greater than 2 (length 3 included, length 2 excluded). -/
theorem task_identifier_and_keywords (task : String) :
    task_clean task
        = ⟨task.data.map (fun c => if c = ' ' ∨ c = '-' then '_' else c.toUpper)⟩
    ∧ (∀ w, w ∈ task_keywords task ↔
        ∃ v, v ∈ pySplitWs task ∧ v.length > 2 ∧ w = pyLower v)
    ∧ (∀ v, v ∈ pySplitWs task → v.length = 3 → pyLower v ∈ task_keywords task)
    ∧ (∀ v, v ∈ pySplitWs task → v.length = 2 → pyLower v ∉ task_keywords task) := by
  have hkw : ∀ w, w ∈ task_keywords task ↔
      ∃ v, v ∈ pySplitWs task ∧ v.length > 2 ∧ w = pyLower v := by
    intro w
    simp only [task_keywords, List.mem_map, List.mem_filter, decide_eq_true_eq]
    constructor
    · rintro ⟨v, ⟨hv, hlen⟩, rfl⟩
      exact ⟨v, hv, hlen, rfl⟩
    · rintro ⟨v, hv, hlen, rfl⟩
      exact ⟨v, ⟨hv, hlen⟩, rfl⟩
  refine ⟨?_, hkw, ?_, ?_⟩
  · exact congrArg String.mk (fold_upper_data task.data)
  · intro v hv hlen
    exact (hkw (pyLower v)).mpr ⟨v, hv, by omega, rfl⟩
  · intro v hv hlen hmem
    obtain ⟨u, hu, hul, hequ⟩ := (hkw (pyLower v)).mp hmem
    have h1 : (pyLower v).length = (pyLower u).length := congrArg String.length hequ
    rw [pyLower_length, pyLower_length] at h1
    omega

/-- Witness for C6 at a concrete task: the length-3 token is kept, the
length-2 token is dropped. -/
theorem task_identifier_and_keywords_witness :
    pyLower "abc" ∈ task_keywords "go abc" ∧ pyLower "go" ∉ task_keywords "go abc" :=
  ⟨(task_identifier_and_keywords "go abc").2.2.1 "abc" (by decide) (by decide),
   (task_identifier_and_keywords "go abc").2.2.2 "go" (by decide) (by decide)⟩

/-! ## Claim C3 -/

/-- The filtered task characters (alphanumeric, space, hyphen, underscore). -/
def kept_chars (task : String) : String :=
  ⟨task.data.filter (fun c => c.isAlphanum || c = ' ' || c = '-' || c = '_')⟩

/-- The model-name derivation as the claim words it: strip disallowed
characters, fold spaces and hyphens to underscores, lower-case, append the
profile suffix.  No whitespace trimming appears in the claim. -/
def model_name_claimed (task : String) (optimization : Nat) : String :=
  if optimization = 5 then
    pyLower ⟨(kept_chars task).data.map (fun c => if c = ' ' ∨ c = '-' then '_' else c)⟩ ++ "_tiny"
  else if optimization = 6 then
    pyLower ⟨(kept_chars task).data.map (fun c => if c = ' ' ∨ c = '-' then '_' else c)⟩ ++ "_mobile"
  else
    pyLower ⟨(kept_chars task).data.map (fun c => if c = ' ' ∨ c = '-' then '_' else c)⟩ ++ "_apex"

/-- The amended derivation: as claimed, but with the whitespace trim the
code performs between the character strip and the separator fold. -/
def model_name_amended (task : String) (optimization : Nat) : String :=
  if optimization = 5 then
    pyLower ⟨(pyStrip (kept_chars task)).data.map (fun c => if c = ' ' ∨ c = '-' then '_' else c)⟩ ++ "_tiny"
  else if optimization = 6 then
    pyLower ⟨(pyStrip (kept_chars task)).data.map (fun c => if c = ' ' ∨ c = '-' then '_' else c)⟩ ++ "_mobile"
  else
    pyLower ⟨(pyStrip (kept_chars task)).data.map (fun c => if c = ' ' ∨ c = '-' then '_' else c)⟩ ++ "_apex"

/-- Counterexample to C3 as stated: on a task with leading whitespace the
code trims before folding, while the claimed derivation folds the space
into a leading underscore. -/
theorem model_name_trim_counterexample :
    model_name_of " x" 1 = "x_apex"
    ∧ model_name_claimed " x" 1 = "_x_apex"
    ∧ model_name_of " x" 1 ≠ model_name_claimed " x" 1 := by
  refine ⟨?_, ?_, ?_⟩ <;> decide

/-- Claim C3 (amended): the generated model name is derived by stripping
non-alphanumeric characters other than space, hyphen and underscore,
trimming surrounding whitespace, folding spaces and hyphens to
underscores, lower-casing, and appending the profile suffix; the stated
example evaluates as claimed. -/
theorem model_name_spec_correct (task : String) (opt : Nat) :
    model_name_of task opt = model_name_amended task opt
    ∧ model_name_of "Python Backend Development!!" 5 = "python_backend_development_tiny" := by
  constructor
  · have hb : model_base task
        = pyLower ⟨(pyStrip (kept_chars task)).data.map
            (fun c => if c = ' ' ∨ c = '-' then '_' else c)⟩ :=
      congrArg String.mk (lower_fold_data (pyStrip (kept_chars task)).data)
    unfold model_name_of model_name_amended
    rw [hb]
  · decide

/-! ## Prompt occurrence helpers -/

/-- The refusal directive is a top-level chunk of the prompt. -/
theorem occursIn_directive_prompt (task si : String) (f : FeatureFlags) :
    occursIn strictDirective (system_prompt_text task si f) := by
  unfold system_prompt_text
  exact occursIn_appendLeft _ _ _ (occursIn_head _ _)

/-- Anything occurring in the feature section occurs in the full prompt. -/
theorem occursIn_feature_section_prompt (task si : String) (f : FeatureFlags) (n : String)
    (h : occursIn n (feature_section f)) : occursIn n (system_prompt_text task si f) := by
  unfold system_prompt_text
  exact occursIn_appendLeft _ _ _ (occursIn_appendLeft _ _ _ (occursIn_appendLeft _ _ _
    (occursIn_appendLeft _ _ _ (occursIn_appendLeft _ _ _ (occursIn_appendRight _ _ _ h)))))

/-- A sentence that is one of the accumulated feature prompts occurs in the
joined feature section. -/
theorem occursIn_section_of_mem {s : String} {f : FeatureFlags}
    (hmem : s ∈ feature_prompts f) : occursIn s (feature_section f) := by
  have hne : feature_prompts f ≠ [] := by
    intro hE
    rw [hE] at hmem
    cases hmem
  unfold feature_section
  rw [if_neg hne]
  exact occursIn_pyJoin _ _ _ hmem

/-! ## Claim C5 -/

/-- The ordered table of (flag selector, sentence) pairs, in the declared
order of the seven flags that the prompt generator consults. -/
def feature_table : List ((FeatureFlags → Bool) × String) :=
  [(fun f => f.code_focus,
    "You excel at code generation, debugging, and optimization with perfect syntax and innovative approaches."),
   (fun f => f.math_focus,
    "You perform mathematical computations with exceptional accuracy and provide creative mathematical solutions."),
   (fun f => f.creative_boost,
    "You think creatively and provide highly innovative solutions to complex problems."),
   (fun f => f.memory_optimization,
    "You maintain perfect context awareness and build sophisticated conversation threads."),
   (fun f => f.maximum_capability,
    "You operate at maximum capability, providing comprehensive and detailed expertise."),
   (fun f => f.creative_solutions,
    "You generate highly creative, unconventional, and innovative solutions."),
   (fun f => f.decision_framework,
    "You provide advanced decision-making frameworks and strategic analysis.")]

/-- Counterexample to C5 as stated: `strict_task_mode` contributes no
sentence fragment.  With only `strict_task_mode` set, the feature section
equals the all-false fallback sentence and the whole compiler output is
identical to the all-false configuration. -/
theorem strict_mode_no_fragment :
    feature_section ⟨false, false, false, false, false, false, false, true⟩
        = "You are optimized for comprehensive educational excellence."
    ∧ create_ultimate_system_prompt "T"
          ⟨1, 1, 1, ⟨false, false, false, false, false, false, false, true⟩⟩
        = create_ultimate_system_prompt "T"
          ⟨1, 1, 1, ⟨false, false, false, false, false, false, false, false⟩⟩ :=
  ⟨rfl, rfl⟩

/-- Claim C5 (amended): each of the seven flags `code_focus` through
`decision_framework` that is true contributes its fixed sentence verbatim
to the instruction text, in the declared order (the accumulated list is
exactly the ordered filter of the table); `strict_task_mode` contributes
nothing; when the seven are all false the feature section is exactly the
fallback sentence. -/
theorem feature_fragments_ordered (f : FeatureFlags) :
    feature_prompts f = (feature_table.filter (fun p => p.1 f)).map Prod.snd
    ∧ (f.code_focus = false → f.math_focus = false → f.creative_boost = false →
       f.memory_optimization = false → f.maximum_capability = false →
       f.creative_solutions = false → f.decision_framework = false →
         feature_section f = "You are optimized for comprehensive educational excellence.")
    ∧ (∀ p, p ∈ feature_table → p.1 f = true →
         ∀ task si, occursIn p.2 (system_prompt_text task si f)) := by
  obtain ⟨c1, c2, c3, c4, c5, c6, c7, c8⟩ := f
  refine ⟨?_, ?_, ?_⟩
  · cases c1 <;> cases c2 <;> cases c3 <;> cases c4 <;> cases c5 <;> cases c6 <;> cases c7 <;> rfl
  · intro h1 h2 h3 h4 h5 h6 h7
    subst h1 h2 h3 h4 h5 h6 h7
    rfl
  · intro p hp hflag task si
    fin_cases hp <;>
      exact occursIn_feature_section_prompt _ _ _ _
        (occursIn_section_of_mem (by simp only at hflag; simp [feature_prompts, hflag]))

/-- Witness for C5 at concrete flag configurations: the all-false section
is the fallback, and the code-focus sentence occurs in a prompt generated
with `code_focus` set. -/
theorem feature_fragments_ordered_witness :
    feature_section ⟨false, false, false, false, false, false, false, false⟩
        = "You are optimized for comprehensive educational excellence."
    ∧ occursIn
        "You excel at code generation, debugging, and optimization with perfect syntax and innovative approaches."
        (system_prompt_text "T" "S" ⟨true, false, false, false, false, false, false, false⟩) :=
  ⟨(feature_fragments_ordered ⟨false, false, false, false, false, false, false, false⟩).2.1
      rfl rfl rfl rfl rfl rfl rfl,
   (feature_fragments_ordered ⟨true, false, false, false, false, false, false, false⟩).2.2
      _ (List.Mem.head _) rfl "T" "S"⟩

/-! ## Claim C10 -/

/-- Characterization of a successful compilation: both lookups succeed. -/
theorem create_prompt_eq (task : String) (config : Config) (si : String)
    (op : SamplingParams) (hs : style_instructions config.style = some si)
    (ho : optimization_params config.optimization = some op) :
    create_ultimate_system_prompt task config
      = some (system_prompt_text task si config.features, op) := by
  unfold create_ultimate_system_prompt
  rw [hs, ho]

/-- Inversion of a successful compilation: the prompt component is the
interpolated template for the selected style instruction. -/
theorem create_prompt_inv (task : String) (config : Config) (p : String)
    (prm : SamplingParams)
    (h : create_ultimate_system_prompt task config = some (p, prm)) :
    ∃ si, style_instructions config.style = some si
      ∧ p = system_prompt_text task si config.features := by
  unfold create_ultimate_system_prompt at h
  rcases hs : style_instructions config.style with _ | si
  · rw [hs] at h
    cases h
  · rw [hs] at h
    rcases ho : optimization_params config.optimization with _ | op
    · rw [ho] at h
      cases h
    · rw [ho] at h
      injection h with h1
      injection h1 with hp hq
      exact ⟨si, rfl, hp.symm⟩

/-- Claim C10: the compiler output is independent of `strict_task_mode`,
and the ultra-strict task-refusal directive occurs in the instruction text
of every successfully compiled configuration. -/
theorem prompt_strict_flag_independent :
    (∀ (task : String) (lvl sty opt : Nat) (f : FeatureFlags) (b : Bool),
        create_ultimate_system_prompt task ⟨lvl, sty, opt,
            ⟨f.code_focus, f.math_focus, f.creative_boost, f.memory_optimization,
             f.maximum_capability, f.creative_solutions, f.decision_framework, b⟩⟩
          = create_ultimate_system_prompt task ⟨lvl, sty, opt, f⟩)
    ∧ (∀ (task : String) (config : Config) (p : String) (prm : SamplingParams),
        create_ultimate_system_prompt task config = some (p, prm) →
          occursIn strictDirective p) := by
  constructor
  · intro task lvl sty opt f b
    obtain ⟨c1, c2, c3, c4, c5, c6, c7, c8⟩ := f
    rfl
  · intro task config p prm h
    obtain ⟨si, -, hp⟩ := create_prompt_inv task config p prm h
    rw [hp]
    exact occursIn_directive_prompt task si config.features

/-- Witness for C10: the directive occurs in a concrete compiled prompt. -/
theorem prompt_strict_flag_independent_witness :
    ∃ p prm, create_ultimate_system_prompt "T"
        ⟨1, 1, 1, ⟨false, false, false, false, false, false, false, false⟩⟩ = some (p, prm)
      ∧ occursIn strictDirective p := by
  refine ⟨_, _, rfl, ?_⟩
  exact prompt_strict_flag_independent.2 "T"
    ⟨1, 1, 1, ⟨false, false, false, false, false, false, false, false⟩⟩ _ _ rfl

/-! ## Claim C4 -/

set_option maxRecDepth 100000 in
/-- Claim C4 (divergence evidence): the compiler output is independent of
the expertise level, an out-of-range level does not fail, and the persona
text the level selects in the `level_personas` table never appears in the
generated prompt. -/
theorem level_personas_unused :
    (∀ (task : String) (lvl1 lvl2 sty opt : Nat) (f : FeatureFlags),
        create_ultimate_system_prompt task ⟨lvl1, sty, opt, f⟩
          = create_ultimate_system_prompt task ⟨lvl2, sty, opt, f⟩)
    ∧ (∃ p prm, create_ultimate_system_prompt "Python"
          ⟨7, 1, 1, ⟨false, false, false, false, false, false, false, false⟩⟩
        = some (p, prm))
    ∧ (∃ p prm, create_ultimate_system_prompt "Python"
          ⟨1, 1, 1, ⟨false, false, false, false, false, false, false, false⟩⟩
        = some (p, prm)
        ∧ level_personas 1 = some "friendly novice guide who explains concepts clearly"
        ∧ ¬ occursIn "friendly novice guide who explains concepts clearly" p) := by
  refine ⟨fun task l1 l2 s o f => rfl, ⟨_, _, rfl⟩, ⟨_, _, rfl, rfl, ?_⟩⟩
  exact not_occursIn_of_containsSub_false (by decide)

/-! ## Claim C7 -/

/-- A non-blank line whose whitespace split is a single token parses to a
record with both metadata fields defaulted. -/
theorem parse_line_name_only (d n : String) (hb : pyStrip d ≠ "")
    (hs : pySplitWs d = [n]) : parse_line d = [⟨n, "Unknown", "Unknown"⟩] := by
  unfold parse_line
  rw [if_neg hb, hs]

/-- A non-blank line whose whitespace split is exactly two tokens parses to
a record with the modified-time field defaulted. -/
theorem parse_line_name_size (d n s : String) (hb : pyStrip d ≠ "")
    (hs : pySplitWs d = [n, s]) : parse_line d = [⟨n, s, "Unknown"⟩] := by
  unfold parse_line
  rw [if_neg hb, hs]

/-- Claim C7: a recognized header line followed by two non-blank data lines
yields exactly the two records, header excluded, with missing fields set to
the Unknown sentinel. -/
theorem parse_inventory_records (h d1 d2 n1 n2 s2 : String)
    (hh : (containsSub "NAME" h || containsSub "Model" h) = true)
    (hb1 : pyStrip d1 ≠ "") (hb2 : pyStrip d2 ≠ "")
    (hs1 : pySplitWs d1 = [n1]) (hs2 : pySplitWs d2 = [n2, s2]) :
    parse_inventory_lines [h, d1, d2]
      = [⟨n1, "Unknown", "Unknown"⟩, ⟨n2, s2, "Unknown"⟩] := by
  unfold parse_inventory_lines
  show parse_all
      (if (containsSub "NAME" h || containsSub "Model" h) = true then [d1, d2]
       else [h, d1, d2]) = _
  rw [if_pos hh]
  show parse_line d1 ++ (parse_line d2 ++ parse_all []) = _
  rw [parse_line_name_only d1 n1 hb1 hs1, parse_line_name_size d2 n2 s2 hb2 hs2]
  rfl

/-- Witness for C7 at a concrete inventory output. -/
theorem parse_inventory_records_witness :
    parse_inventory_lines ["NAME SIZE MODIFIED", "alpha", "beta 1.2GB"]
      = [⟨"alpha", "Unknown", "Unknown"⟩, ⟨"beta", "1.2GB", "Unknown"⟩] :=
  parse_inventory_records "NAME SIZE MODIFIED" "alpha" "beta 1.2GB" "alpha" "beta" "1.2GB"
    (by decide) (by decide) (by decide) (by decide) (by decide)

/-! ## Claim C8 -/

/-- Counterexample to C8 as stated: the first invocation succeeds but its
output parses to no records (header-only output), so the reader moves on
and returns the records of the second successful invocation instead of the
first ones. -/
theorem inventory_first_success_counterexample :
    get_available_models [some "NAME SIZE MODIFIED", some "m1 1GB today", none]
        = [⟨"m1", "1GB", "today"⟩]
    ∧ parse_models "NAME SIZE MODIFIED" = []
    ∧ get_available_models [some "NAME SIZE MODIFIED", some "m1 1GB today", none]
        ≠ parse_models "NAME SIZE MODIFIED" := by
  refine ⟨?_, ?_, ?_⟩ <;> decide

/-- Claim C8 (amended): the reader is total (always returns a list); it
returns the parsed records of the first successful invocation whose parse
is non-empty, and returns the empty list exactly when every successful
invocation parses to no records. -/
theorem inventory_first_nonempty_parse (outcomes : List (Option String)) :
    (get_available_models outcomes = [] →
       ∀ s, some s ∈ outcomes → parse_models s = [])
    ∧ (get_available_models outcomes ≠ [] →
       ∃ pre s post, outcomes = pre ++ some s :: post
         ∧ (∀ o ∈ pre, ∀ t, o = some t → parse_models t = [])
         ∧ parse_models s ≠ []
         ∧ get_available_models outcomes = parse_models s) := by
  induction outcomes with
  | nil =>
    constructor
    · intro _ s hs
      cases hs
    · intro hne
      exact absurd rfl hne
  | cons o rest ih =>
    cases o with
    | none =>
      have hstep : get_available_models (none :: rest) = get_available_models rest := rfl
      constructor
      · intro hE s hs
        rcases List.mem_cons.mp hs with hh | hh
        · cases hh
        · exact ih.1 (hstep ▸ hE) s hh
      · intro hne
        obtain ⟨pre, s, post, heq, hpre, hps, hres⟩ := ih.2 (hstep ▸ hne)
        refine ⟨none :: pre, s, post, by rw [heq]; rfl, ?_, hps, hstep ▸ hres⟩
        intro o ho t hot
        rcases List.mem_cons.mp ho with hh | hh
        · rw [hh] at hot
          cases hot
        · exact hpre o hh t hot
    | some out =>
      rcases hpm : parse_models out with _ | ⟨r, rs⟩
      · have hstep : get_available_models (some out :: rest) = get_available_models rest := by
          show (if parse_models out = [] then get_available_models rest else parse_models out) = _
          rw [if_pos hpm]
        constructor
        · intro hE s hs
          rcases List.mem_cons.mp hs with hh | hh
          · cases hh
            exact hpm
          · exact ih.1 (hstep ▸ hE) s hh
        · intro hne
          obtain ⟨pre, s, post, heq, hpre, hps, hres⟩ := ih.2 (hstep ▸ hne)
          refine ⟨some out :: pre, s, post, by rw [heq]; rfl, ?_, hps, hstep ▸ hres⟩
          intro o ho t hot
          rcases List.mem_cons.mp ho with hh | hh
          · rw [hh] at hot
            injection hot with hot1
            rw [← hot1]
            exact hpm
          · exact hpre o hh t hot
      · have hstep : get_available_models (some out :: rest) = parse_models out := by
          show (if parse_models out = [] then get_available_models rest else parse_models out) = _
          rw [if_neg (by rw [hpm]; exact fun hc => List.noConfusion hc)]
        constructor
        · intro hE
          rw [hstep, hpm] at hE
          cases hE
        · intro _
          refine ⟨[], out, rest, rfl, ?_, ?_, hstep⟩
          · intro o ho
            cases ho
          · rw [hpm]
            exact fun hc => List.noConfusion hc

/-- Witness for C8 at a concrete outcome list with one successful
invocation whose output parses to one record. -/
theorem inventory_first_nonempty_parse_witness :
    ∃ pre s post, ([some "m1 1GB today"] : List (Option String)) = pre ++ some s :: post
      ∧ (∀ o ∈ pre, ∀ t, o = some t → parse_models t = [])
      ∧ parse_models s ≠ []
      ∧ get_available_models [some "m1 1GB today"] = parse_models s :=
  (inventory_first_nonempty_parse [some "m1 1GB today"]).2 (by decide)

/-! ## Claim C2 -/

/-- Anything occurring in the parameter block occurs in the modelfile. -/
theorem occursIn_modelfile_param (n base sys : String) (p : SamplingParams) (pt : Nat)
    (boost : Nat × Nat × Nat) (h : occursIn n (param_block p pt boost)) :
    occursIn n (modelfile_text base sys p pt boost) := by
  unfold modelfile_text
  exact occursIn_appendLeft _ _ _ (occursIn_appendLeft _ _ _ (occursIn_appendLeft _ _ _
    (occursIn_appendLeft _ _ _ (occursIn_appendLeft _ _ _ (occursIn_appendLeft _ _ _
      (occursIn_appendLeft _ _ _ h))))))

/-- The num_predict line occurs in the parameter block. -/
theorem occursIn_pb_predict (p : SamplingParams) (pt : Nat) (boost : Nat × Nat × Nat) :
    occursIn ("PARAMETER num_predict " ++ toString pt ++ "\n") (param_block p pt boost) := by
  unfold param_block
  exact occursIn_appendLeft _ _ _ (occursIn_appendLeft _ _ _ (occursIn_appendLeft _ _ _
    (occursIn_appendLeft _ _ _ (occursIn_appendLeft _ _ _ (occursIn_head _ _)))))

/-- The num_thread line occurs in the parameter block. -/
theorem occursIn_pb_thread (p : SamplingParams) (pt : Nat) (boost : Nat × Nat × Nat) :
    occursIn ("PARAMETER num_thread " ++ toString boost.1 ++ "\n") (param_block p pt boost) := by
  unfold param_block
  exact occursIn_appendLeft _ _ _ (occursIn_appendLeft _ _ _ (occursIn_appendLeft _ _ _
    (occursIn_appendLeft _ _ _ (occursIn_appendLeft _ _ _ (occursIn_appendLeft _ _ _
      (occursIn_head _ _))))))

/-- The num_gpu line occurs in the parameter block. -/
theorem occursIn_pb_gpu (p : SamplingParams) (pt : Nat) (boost : Nat × Nat × Nat) :
    occursIn ("PARAMETER num_gpu " ++ toString boost.2.2 ++ "\n") (param_block p pt boost) := by
  unfold param_block
  exact occursIn_appendLeft _ _ _ (occursIn_appendLeft _ _ _ (occursIn_appendLeft _ _ _
    (occursIn_appendLeft _ _ _ (occursIn_appendLeft _ _ _ (occursIn_appendLeft _ _ _
      (occursIn_appendLeft _ _ _ (occursIn_head _ _)))))))

/-- The num_batch line occurs in the parameter block. -/
theorem occursIn_pb_batch (p : SamplingParams) (pt : Nat) (boost : Nat × Nat × Nat) :
    occursIn ("PARAMETER num_batch " ++ toString boost.2.1 ++ "\n") (param_block p pt boost) := by
  unfold param_block
  exact occursIn_appendLeft _ _ _ (occursIn_appendLeft _ _ _ (occursIn_appendLeft _ _ _
    (occursIn_appendLeft _ _ _ (occursIn_appendLeft _ _ _ (occursIn_appendLeft _ _ _
      (occursIn_appendLeft _ _ _ (occursIn_appendLeft _ _ _ (occursIn_refl _))))))))

/-- A successful compilation determines the whole modelfile text. -/
theorem modelfile_content_eq (task base : String) (config : Config) (si : String)
    (op : SamplingParams) (boost : Nat × Nat × Nat)
    (hs : style_instructions config.style = some si)
    (ho : optimization_params config.optimization = some op)
    (hb : performance_boost config.optimization = some boost) :
    create_ultimate_modelfile_content task base config
      = some (modelfile_text base (system_prompt_text task si config.features) op
          (predict_tokens config.optimization) boost) := by
  unfold create_ultimate_modelfile_content
  rw [create_prompt_eq task config si op hs ho, hb]

/-- Claim C2: for every optimization profile in range the written modelfile
carries `num_predict` 1024 for profile 5, 1536 for profile 6, 4096
otherwise, and the thread, batch and GPU counts of the fixed six-entry
performance table are the values of the written PARAMETER lines. -/
theorem modelfile_params_table (task base : String) (lvl sty opt : Nat) (f : FeatureFlags)
    (hs1 : 1 ≤ sty) (hs2 : sty ≤ 5) (ho1 : 1 ≤ opt) (ho2 : opt ≤ 6) :
    predict_tokens opt = (if opt = 5 then 1024 else if opt = 6 then 1536 else 4096)
    ∧ ∃ t b g, performance_boost opt = some (t, b, g)
        ∧ (t, b, g) = (if opt = 1 then ((16 : Nat), (1024 : Nat), (1 : Nat))
            else if opt = 2 then (12, 768, 1)
            else if opt = 3 then (8, 512, 1) else if opt = 4 then (6, 256, 1)
            else if opt = 5 then (8, 128, 1) else (4, 64, 1))
        ∧ ∃ content,
            create_ultimate_modelfile_content task base ⟨lvl, sty, opt, f⟩ = some content
            ∧ occursIn ("PARAMETER num_predict " ++ toString (predict_tokens opt) ++ "\n")
                content
            ∧ occursIn ("PARAMETER num_thread " ++ toString t ++ "\n") content
            ∧ occursIn ("PARAMETER num_batch " ++ toString b ++ "\n") content
            ∧ occursIn ("PARAMETER num_gpu " ++ toString g ++ "\n") content := by
  obtain ⟨si, hsi⟩ : ∃ si, style_instructions sty = some si := by
    interval_cases sty <;> exact ⟨_, rfl⟩
  obtain ⟨op, hop⟩ : ∃ op, optimization_params opt = some op := by
    interval_cases opt <;> exact ⟨_, rfl⟩
  constructor
  · interval_cases opt <;> rfl
  · obtain ⟨t, b, g, hboost, htable⟩ :
        ∃ t b g, performance_boost opt = some (t, b, g)
          ∧ (t, b, g) = (if opt = 1 then ((16 : Nat), (1024 : Nat), (1 : Nat))
              else if opt = 2 then (12, 768, 1)
              else if opt = 3 then (8, 512, 1) else if opt = 4 then (6, 256, 1)
              else if opt = 5 then (8, 128, 1) else (4, 64, 1)) := by
      interval_cases opt <;> exact ⟨_, _, _, rfl, rfl⟩
    refine ⟨t, b, g, hboost, htable, _,
      modelfile_content_eq task base ⟨lvl, sty, opt, f⟩ si op (t, b, g) hsi hop hboost,
      ?_, ?_, ?_, ?_⟩
    · exact occursIn_modelfile_param _ _ _ _ _ _ (occursIn_pb_predict _ _ _)
    · exact occursIn_modelfile_param _ _ _ _ _ _ (occursIn_pb_thread _ _ _)
    · exact occursIn_modelfile_param _ _ _ _ _ _ (occursIn_pb_batch _ _ _)
    · exact occursIn_modelfile_param _ _ _ _ _ _ (occursIn_pb_gpu _ _ _)

/-- Witness for C2 at style 2, profile 1. -/
theorem modelfile_params_table_witness :
    predict_tokens 1 = (if (1 : Nat) = 5 then 1024 else if (1 : Nat) = 6 then 1536 else 4096)
    ∧ ∃ t b g, performance_boost 1 = some (t, b, g)
        ∧ (t, b, g) = (if (1 : Nat) = 1 then ((16 : Nat), (1024 : Nat), (1 : Nat))
            else if (1 : Nat) = 2 then (12, 768, 1)
            else if (1 : Nat) = 3 then (8, 512, 1) else if (1 : Nat) = 4 then (6, 256, 1)
            else if (1 : Nat) = 5 then (8, 128, 1) else (4, 64, 1))
        ∧ ∃ content,
            create_ultimate_modelfile_content "T" "b"
                ⟨3, 2, 1, ⟨false, false, false, false, false, false, false, false⟩⟩
              = some content
            ∧ occursIn ("PARAMETER num_predict " ++ toString (predict_tokens 1) ++ "\n")
                content
            ∧ occursIn ("PARAMETER num_thread " ++ toString t ++ "\n") content
            ∧ occursIn ("PARAMETER num_batch " ++ toString b ++ "\n") content
            ∧ occursIn ("PARAMETER num_gpu " ++ toString g ++ "\n") content :=
  modelfile_params_table "T" "b" 3 2 1 ⟨false, false, false, false, false, false, false, false⟩
    (by decide) (by decide) (by decide) (by decide)

/-! ## Claim C1 -/

/-- Claim C1: after the builder returns, the temporary modelfile is absent
from disk on every path (success, create failure, smoke-test timeout, and
the propagating lookup error, where the file is never written); and when
the create subcommand exits non-zero the builder returns the absent
result. -/
theorem builder_cleanup_and_create_failure (task base : String) (config : Config)
    (env : BuildEnv) :
    (create_ultimate_model task base config env).2.modelfileOnDisk = false
    ∧ (env.createSucceeds = false →
        create_ultimate_modelfile_content task base config ≠ none →
        (create_ultimate_model task base config env).1 = Except.ok none) := by
  obtain ⟨cS, tT, tR⟩ := env
  constructor
  · rcases hc : create_ultimate_modelfile_content task base config with _ | c
    · simp [create_ultimate_model, builder_try, builder_finally, hc]
    · cases cS <;> cases tT <;> by_cases hr : tR = 0 <;>
        simp [create_ultimate_model, builder_try, builder_finally, hc, hr]
  · intro hcs hnn
    have hcs2 : cS = false := hcs
    subst hcs2
    rcases hc : create_ultimate_modelfile_content task base config with _ | c
    · exact absurd hc hnn
    · simp [create_ultimate_model, builder_try, builder_finally, hc]

/-- Witness for C1: with a failing create invocation the builder returns
the absent result and reports the file as removed. -/
theorem builder_cleanup_and_create_failure_witness :
    (create_ultimate_model "T" "b"
        ⟨1, 1, 1, ⟨false, false, false, false, false, false, false, false⟩⟩
        ⟨false, false, 0⟩).2.modelfileOnDisk = false
    ∧ (create_ultimate_model "T" "b"
        ⟨1, 1, 1, ⟨false, false, false, false, false, false, false, false⟩⟩
        ⟨false, false, 0⟩).1 = Except.ok none :=
  ⟨(builder_cleanup_and_create_failure "T" "b"
      ⟨1, 1, 1, ⟨false, false, false, false, false, false, false, false⟩⟩
      ⟨false, false, 0⟩).1,
   (builder_cleanup_and_create_failure "T" "b"
      ⟨1, 1, 1, ⟨false, false, false, false, false, false, false, false⟩⟩
      ⟨false, false, 0⟩).2 rfl (by decide)⟩

/-! ## Claim C9 -/

/-- Claim C9: when the create subcommand succeeds, the builder returns the
generated model name whatever the smoke test does (timeout, non-zero exit,
or success); creation is never reverted. -/
theorem smoke_test_nonfatal (task base : String) (config : Config) (env : BuildEnv)
    (hcs : env.createSucceeds = true)
    (hnn : create_ultimate_modelfile_content task base config ≠ none) :
    (create_ultimate_model task base config env).1
      = Except.ok (some (model_name_of task config.optimization)) := by
  obtain ⟨cS, tT, tR⟩ := env
  have hcs2 : cS = true := hcs
  subst hcs2
  rcases hc : create_ultimate_modelfile_content task base config with _ | c
  · exact absurd hc hnn
  · cases tT <;> by_cases hr : tR = 0 <;>
      simp [create_ultimate_model, builder_try, builder_finally, hc, hr]

/-- Witness for C9: a timed-out smoke test still yields the model name. -/
theorem smoke_test_nonfatal_witness :
    (create_ultimate_model "T" "b"
        ⟨1, 1, 1, ⟨false, false, false, false, false, false, false, false⟩⟩
        ⟨true, true, 7⟩).1 = Except.ok (some (model_name_of "T" 1)) :=
  smoke_test_nonfatal "T" "b"
    ⟨1, 1, 1, ⟨false, false, false, false, false, false, false, false⟩⟩
    ⟨true, true, 7⟩ rfl (by decide)
